import Mathlib

/-!
Verification development for the AWCP (Agent Workspace Collaboration
Protocol) SDK.  The definitions below are a shallow embedding of the
TypeScript sources, in particular:

  * packages/sdk/src/delegator/snapshot-manager.ts  (SnapshotManager)
  * packages/sdk/src/delegator/admission.ts         (AdmissionController)
  * packages/sdk/src/delegator/config.ts            (DEFAULT_ADMISSION, resolveDelegatorConfig)
  * packages/sdk/src/executor/workspace-manager.ts  (WorkspaceManager)
  * packages/sdk/src/executor/service.ts            (ExecutorService)
  * packages/core/src/types/messages.ts             (message shapes, PROTOCOL_VERSION)

Asynchronous effects are embedded by explicit state passing; fallible
operations return `Except`; filesystem and transport side effects are
passed in as explicit boolean/function parameters whose meaning is
documented at each definition.
-/

namespace AWCP

/-- Access modes for workspace delegation (core/src/types: `'ro' | 'rw'`). -/
inductive AccessMode
  | ro
  | rw
deriving DecidableEq, Repr

/-- Snapshot status (`'pending' | 'applied' | 'discarded'`). -/
inductive SnapshotStatus
  | pending
  | applied
  | discarded
deriving DecidableEq, Repr

/-- Snapshot policy mode (`'auto' | 'staged' | 'discard'`). -/
inductive SnapshotMode
  | auto
  | staged
  | discard
deriving DecidableEq, Repr

/-- `PROTOCOL_VERSION = '1'` (core/src/types/messages.ts). -/
def PROTOCOL_VERSION : String := "1"

/-- A resource entry of a delegation environment
(`{name, type, source, mode, include?, exclude?}`); the glob lists are not
consulted by the functions embedded here and are omitted. -/
structure ResourceSpec where
  name : String
  rtype : String
  source : String
  mode : AccessMode
deriving DecidableEq, Repr

/-- `EnvironmentDeclaration` — the ordered resource list of a delegation. -/
structure EnvironmentDeclaration where
  resources : List ResourceSpec
deriving DecidableEq, Repr

/-- `delegation.snapshotPolicy` — only the `mode` field is read by the
snapshot manager. -/
structure SnapshotPolicy where
  mode : SnapshotMode
deriving DecidableEq, Repr

/-- `EnvironmentSnapshot` as built by `SnapshotManager.receive`
(snapshot-manager.ts, lines 45-54). -/
structure EnvironmentSnapshot where
  id : String
  delegationId : String
  summary : String
  highlights : Option (List String)
  status : SnapshotStatus
  recommended : Option Bool
  createdAt : String
  appliedAt : Option String
  localPath : Option String
deriving DecidableEq, Repr

/-- The fields of the `Delegation` record that the snapshot manager reads
or writes (snapshot-manager.ts). -/
structure Delegation where
  id : String
  snapshotPolicy : Option SnapshotPolicy
  exportPath : Option String
  environment : EnvironmentDeclaration
  snapshots : List EnvironmentSnapshot
  appliedSnapshotId : Option String
  updatedAt : String
deriving DecidableEq, Repr

/-- A `snapshot` task event received from the executor
(`TaskSnapshotEvent`). -/
structure TaskSnapshotEvent where
  delegationId : String
  snapshotId : String
  summary : String
  highlights : Option (List String)
  recommended : Option Bool
  snapshotBase64 : String
deriving DecidableEq, Repr

namespace SnapshotManager

/-- `SnapshotManager.applyViaTransport` (snapshot-manager.ts, lines 115-133).

Returns whether `transport.applySnapshot` actually ran to completion, i.e.
whether the export tree was modified.  The source returns early when the
delegation has no `exportPath` or no `rw` resources; `hasApplyFn` models
whether the optional adapter method `transport.applySnapshot` is defined,
and `transportOk` whether that call succeeds.  A failing call is caught
and only logged (`console.error`), so this function never fails. -/
def applyViaTransport (transportOk hasApplyFn : Bool) (d : Delegation) : Bool :=
  match d.exportPath with
  | none => false
  | some _ =>
    let rwResources := d.environment.resources.filter (fun r => r.mode == AccessMode.rw)
    if rwResources.isEmpty then false
    else if hasApplyFn then transportOk
    else false

/-- `SnapshotManager.receive` (snapshot-manager.ts, lines 38-77).

`liveSync` is `transport.capabilities.liveSync`; `now` stands for
`new Date().toISOString()`; `stagedDir` stands for the directory path
returned by `save` in the staged branch.  Returns the updated delegation
together with the recorded snapshot, or `none` for live-sync transports. -/
def receive (liveSync transportOk hasApplyFn : Bool) (now stagedDir : String)
    (d : Delegation) (ev : TaskSnapshotEvent) :
    Option (Delegation × EnvironmentSnapshot) :=
  if liveSync then none
  else
    let snapshot : EnvironmentSnapshot :=
      { id := ev.snapshotId
        delegationId := d.id
        summary := ev.summary
        highlights := ev.highlights
        status := SnapshotStatus.pending
        recommended := ev.recommended
        createdAt := now
        appliedAt := none
        localPath := none }
    let (snapshot, d) :=
      match d.snapshotPolicy with
      | some policy =>
        if policy.mode == SnapshotMode.auto then
          -- the Bool result of applyViaTransport is discarded by the source
          let _ := applyViaTransport transportOk hasApplyFn d
          ({ snapshot with
              status := SnapshotStatus.applied
              appliedAt := some now },
           { d with appliedSnapshotId := some ev.snapshotId })
        else if policy.mode == SnapshotMode.staged then
          ({ snapshot with localPath := some stagedDir }, d)
        else
          ({ snapshot with status := SnapshotStatus.discarded }, d)
      | none => ({ snapshot with status := SnapshotStatus.discarded }, d)
    some ({ d with
              snapshots := d.snapshots ++ [snapshot]
              updatedAt := now },
          snapshot)

/-- Replace the first snapshot with the given id (the source mutates the
object found by `delegation.snapshots?.find(...)` in place). -/
def replaceFirst : List EnvironmentSnapshot → String → EnvironmentSnapshot →
    List EnvironmentSnapshot
  | [], _, _ => []
  | t :: rest, sid, s =>
    if t.id == sid then s :: rest else t :: replaceFirst rest sid s

/-- `SnapshotManager.apply` (snapshot-manager.ts, lines 79-93).

`stored delegationId snapshotId` models whether
`baseDir/delegationId/snapshotId/snapshot.zip` exists on disk (the `load`
call rejects when it does not).  `transportOk`/`hasApplyFn` are as in
`applyViaTransport`; that call swallows its own errors and does not
affect control flow.  Fails (throws) when the snapshot is unknown, when
the target snapshot itself already has status `applied`, or when the
payload cannot be loaded. -/
def apply (stored : String → String → Bool) (transportOk hasApplyFn : Bool)
    (now : String) (d : Delegation) (snapshotId : String) :
    Except String (Delegation × EnvironmentSnapshot) :=
  match d.snapshots.find? (fun s => s.id == snapshotId) with
  | none => Except.error ("Snapshot not found: " ++ snapshotId)
  | some s =>
    if s.status == SnapshotStatus.applied then
      Except.error ("Snapshot already applied: " ++ snapshotId)
    else if stored d.id snapshotId then
      let _ := applyViaTransport transportOk hasApplyFn d
      let s' := { s with status := SnapshotStatus.applied, appliedAt := some now }
      let d' := { d with
                    snapshots := replaceFirst d.snapshots snapshotId s'
                    appliedSnapshotId := some snapshotId
                    updatedAt := now }
      Except.ok (d', s')
    else
      Except.error ("ENOENT: no snapshot payload for " ++ snapshotId)

end SnapshotManager

/-- Number of snapshots of a delegation whose status is `applied`. -/
def countApplied (d : Delegation) : Nat :=
  (d.snapshots.filter (fun s => s.status == SnapshotStatus.applied)).length

/-! ## Path handling (node `path.join`, WorkspaceManager) -/

/-- `p` is a string prefix of `s` — the semantics of JavaScript
`s.startsWith(p)`, stated over the character lists. -/
def strPrefix (p s : String) : Bool :=
  p.data.isPrefixOf s.data

/-- Split a character list at `/` separators, accumulating the current
component in reverse. -/
def splitCharsAux : List Char → List Char → List String
  | [], acc => [String.mk acc.reverse]
  | c :: rest, acc =>
    if c = '/' then String.mk acc.reverse :: splitCharsAux rest []
    else splitCharsAux rest (c :: acc)

/-- JavaScript `s.split('/')`. -/
def splitOnSlash (s : String) : List String :=
  splitCharsAux s.data []

/-- One step of node-style path normalization over a component stack:
empty components and `.` are dropped, `..` removes the previous component
(at the root of an absolute path it is a no-op), anything else is pushed. -/
def normStep (acc : List String) (c : String) : List String :=
  if c = "" || c = "." then acc
  else if c = ".." then acc.dropLast
  else acc ++ [c]

/-- The normalized component list of `path.join(root, id)` for an absolute
`root` (node's `join` concatenates the segments and normalizes `.`, `..`
and duplicate separators). -/
def joinParts (root id : String) : List String :=
  (splitOnSlash root ++ splitOnSlash id).foldl normStep []

/-- Render a normalized absolute path from its components. -/
def renderAbs : List String → String
  | [] => "/"
  | cs => cs.foldl (fun acc c => acc ++ "/" ++ c) ""

/-- `path.join(root, id)` for an absolute `root`, rendered as a string. -/
def joinPath (root id : String) : String :=
  renderAbs (joinParts root id)

/-- Result of `WorkspaceManager.validate`. -/
structure WorkspaceValidation where
  valid : Bool
  reason : Option String
deriving DecidableEq, Repr

/-- `WorkspaceManager` state (workspace-manager.ts): the configured root
directory and the in-memory set of allocated paths. -/
structure WorkspaceManager where
  workDir : String
  allocated : List String
deriving DecidableEq, Repr

namespace WorkspaceManager

/-- `WorkspaceManager.allocate` (workspace-manager.ts, lines 24-29):
`path = join(workDir, delegationId)`, recorded in the allocated set. -/
def allocate (w : WorkspaceManager) (delegationId : String) :
    String × WorkspaceManager :=
  let path := joinPath w.workDir delegationId
  (path, { w with allocated := path :: w.allocated })

/-- `WorkspaceManager.validate` (workspace-manager.ts, lines 31-37):
`path.startsWith(this.workDir)`. -/
def validate (w : WorkspaceManager) (path : String) : WorkspaceValidation :=
  if !(strPrefix w.workDir path) then
    { valid := false, reason := some ("Path must be under " ++ w.workDir) }
  else
    { valid := true, reason := none }

/-- `WorkspaceManager.release` (workspace-manager.ts, lines 48-56): remove
from the allocated set; the recursive delete never fails (errors ignored). -/
def release (w : WorkspaceManager) (path : String) : WorkspaceManager :=
  { w with allocated := w.allocated.filter (fun p => p ≠ path) }

end WorkspaceManager

/-- The specification's reading of "path `p` lies under directory `root`":
`p` is `root` itself or a proper descendant, i.e. `root ++ "/"` is a
string prefix of `p` (for normalized absolute paths).  Written from the
spec's words for comparison with `WorkspaceManager.validate`. -/
def liesUnder (root p : String) : Bool :=
  p == root || strPrefix (root ++ "/") p

/-! ## Wire messages (core/src/types/messages.ts) -/

/-- Task description `{description, prompt}`. -/
structure TaskSpec where
  description : String
  prompt : String
deriving DecidableEq, Repr

/-- Lease request `{ttlSeconds, accessMode}` carried by INVITE. -/
structure LeaseConfig where
  ttlSeconds : Nat
  accessMode : AccessMode
deriving DecidableEq, Repr

/-- Active lease `{expiresAt, accessMode}` carried by START. -/
structure ActiveLease where
  expiresAt : String
  accessMode : AccessMode
deriving DecidableEq, Repr

/-- INVITE message (Delegator → Executor). -/
structure InviteMessage where
  version : String
  delegationId : String
  task : TaskSpec
  lease : LeaseConfig
  environment : EnvironmentDeclaration
deriving DecidableEq, Repr

/-- START message (Delegator → Executor); `workDir` is the opaque
transport handle, treated as a value. -/
structure StartMessage where
  version : String
  delegationId : String
  lease : ActiveLease
  workDir : String
deriving DecidableEq, Repr

/-- ERROR message (either direction). -/
structure ErrorMessage where
  version : String
  delegationId : String
  code : String
  message : String
  hint : Option String
deriving DecidableEq, Repr

/-- Sandbox capability declaration. -/
structure SandboxProfile where
  cwdOnly : Bool
  allowNetwork : Bool
  allowExec : Bool
deriving DecidableEq, Repr

/-- Executor constraints returned in ACCEPT. -/
structure ExecutorConstraints where
  acceptedAccessMode : AccessMode
  maxTtlSeconds : Nat
  sandboxProfile : SandboxProfile
deriving DecidableEq, Repr

/-- ACCEPT message (Executor → Delegator). -/
structure AcceptMessage where
  version : String
  delegationId : String
  executorWorkDirPath : String
  executorConstraints : ExecutorConstraints
deriving DecidableEq, Repr

/-- Union of the wire messages the executor dispatches on. -/
inductive AwcpMessage
  | invite : InviteMessage → AwcpMessage
  | accept : AcceptMessage → AwcpMessage
  | start : StartMessage → AwcpMessage
  | error : ErrorMessage → AwcpMessage
deriving DecidableEq, Repr

/-- The version field of a wire message. -/
def AwcpMessage.version : AwcpMessage → String
  | .invite m => m.version
  | .accept m => m.version
  | .start m => m.version
  | .error m => m.version

/-- Whether a wire message is an ACCEPT. -/
def AwcpMessage.isAccept : AwcpMessage → Bool
  | .accept _ => true
  | _ => false

/-- Replace the version field of a wire message. -/
def setVersion : AwcpMessage → String → AwcpMessage
  | .invite m, v => .invite { m with version := v }
  | .accept m, v => .accept { m with version := v }
  | .start m, v => .start { m with version := v }
  | .error m, v => .error { m with version := v }

/-- Error codes used by the executor service (core/src/errors). -/
def ErrorCodes.DECLINED : String := "DECLINED"

def ErrorCodes.DEP_MISSING : String := "DEP_MISSING"

def ErrorCodes.WORKDIR_DENIED : String := "WORKDIR_DENIED"

def ErrorCodes.TASK_FAILED : String := "TASK_FAILED"

def ErrorCodes.CANCELLED : String := "CANCELLED"

/-! ## Executor service (packages/sdk/src/executor/service.ts) -/

/-- Executor admission configuration (executor/config.ts). -/
structure ExecutorAdmissionConfig where
  maxConcurrentDelegations : Nat
  maxTtlSeconds : Nat
  allowedAccessModes : List AccessMode
deriving DecidableEq, Repr

/-- Resolved executor configuration (the fields `handleInvite` and its
callers read).  `hookOnInvite` models the optional `hooks.onInvite`
user hook as a pure predicate. -/
structure ResolvedExecutorConfig where
  workDir : String
  admission : ExecutorAdmissionConfig
  sandbox : SandboxProfile
  autoAccept : Bool
  resultRetentionMs : Nat
  hookOnInvite : Option (InviteMessage → Bool)

/-- `DEFAULT_EXECUTOR_CONFIG.admission` (executor/config.ts, lines 57-62). -/
def DEFAULT_EXECUTOR_ADMISSION : ExecutorAdmissionConfig :=
  { maxConcurrentDelegations := 5
    maxTtlSeconds := 3600
    allowedAccessModes := [AccessMode.ro, AccessMode.rw] }

/-- An entry of the `activeDelegations` map (service.ts `ActiveDelegation`;
the event emitter is not part of the embedded state). -/
structure ActiveDelegation where
  id : String
  workPath : String
  task : TaskSpec
  lease : ActiveLease
  environment : EnvironmentDeclaration
deriving DecidableEq, Repr

/-- The retained snapshot part of a completed delegation record. -/
structure CompletedSnapshotInfo where
  id : String
  summary : String
  highlights : Option (List String)
  snapshotBase64 : Option String
deriving DecidableEq, Repr

/-- The retained error part of a completed delegation record. -/
structure CompletedErrorInfo where
  code : String
  message : String
  hint : Option String
deriving DecidableEq, Repr

/-- Terminal state of a completed delegation record. -/
inductive CompState
  | completed
  | error
deriving DecidableEq, Repr

/-- An entry of the `completedDelegations` map (service.ts
`CompletedDelegation`). -/
structure CompletedDelegation where
  id : String
  completedAt : String
  state : CompState
  snapshot : Option CompletedSnapshotInfo
  error : Option CompletedErrorInfo
deriving DecidableEq, Repr

/-- The three process-wide maps of `ExecutorService` plus the workspace
manager's allocated set, embedded as association lists keyed by
delegation id. -/
structure ExecutorState where
  pendingInvitations : List (String × InviteMessage)
  activeDelegations : List (String × ActiveDelegation)
  completedDelegations : List (String × CompletedDelegation)
  allocated : List String
deriving DecidableEq, Repr

/-- The empty executor state (fresh service). -/
def ExecutorState.empty : ExecutorState :=
  { pendingInvitations := []
    activeDelegations := []
    completedDelegations := []
    allocated := [] }

/-- Association-list lookup (the `Map.get` of the three service maps). -/
def lookup {α : Type} (l : List (String × α)) (k : String) : Option α :=
  (l.find? (fun p => p.fst == k)).map Prod.snd

/-- Association-list insert (`Map.set`): replaces an existing binding. -/
def insertAssoc {α : Type} (l : List (String × α)) (k : String) (v : α) :
    List (String × α) :=
  (k, v) :: l.filter (fun p => p.fst != k)

/-- Association-list delete (`Map.delete`). -/
def deleteAssoc {α : Type} (l : List (String × α)) (k : String) :
    List (String × α) :=
  l.filter (fun p => p.fst != k)

/-- `ExecutorService.createErrorMessage` (service.ts, lines 561-575). -/
def createErrorMessage (delegationId code message : String)
    (hint : Option String) : ErrorMessage :=
  { version := PROTOCOL_VERSION
    delegationId := delegationId
    code := code
    message := message
    hint := hint }

namespace ExecutorService

/-- `ExecutorService.handleInvite` (service.ts, lines 178-278).

`depAvailable` models `transport.checkDependency().available`.  The
admission gates run in source order: concurrency cap (counted over
`activeDelegations`), requested TTL vs configured max, access-mode
allow-list, transport dependency, then the optional user hook (or the
`autoAccept` default).  On admission the work path is allocated and
validated, the invitation is recorded in `pendingInvitations`, and an
ACCEPT is returned whose `maxTtlSeconds` is
`min(invite.lease.ttlSeconds, admission.maxTtlSeconds)`. -/
def handleInvite (cfg : ResolvedExecutorConfig) (depAvailable : Bool)
    (st : ExecutorState) (invite : InviteMessage) :
    (AwcpMessage × ExecutorState) :=
  let delegationId := invite.delegationId
  if st.activeDelegations.length ≥ cfg.admission.maxConcurrentDelegations then
    (.error (createErrorMessage delegationId ErrorCodes.DECLINED
        "Maximum concurrent delegations reached"
        (some "Try again later when current tasks complete")), st)
  else if invite.lease.ttlSeconds > cfg.admission.maxTtlSeconds then
    (.error (createErrorMessage delegationId ErrorCodes.DECLINED
        "Requested TTL exceeds maximum"
        (some "Request a shorter TTL")), st)
  else if !(cfg.admission.allowedAccessModes.contains invite.lease.accessMode) then
    (.error (createErrorMessage delegationId ErrorCodes.DECLINED
        "Access mode not allowed"
        (some "Allowed modes listed in configuration")), st)
  else if !depAvailable then
    (.error (createErrorMessage delegationId ErrorCodes.DEP_MISSING
        "Transport is not available" none), st)
  else
    let hookOutcome : Option (AwcpMessage × ExecutorState) :=
      match cfg.hookOnInvite with
      | some hook =>
        if !(hook invite) then
          some (.error (createErrorMessage delegationId ErrorCodes.DECLINED
              "Invitation declined by policy"
              (some "The agent declined this delegation request")), st)
        else none
      | none =>
        if !cfg.autoAccept then
          some (.error (createErrorMessage delegationId ErrorCodes.DECLINED
              "Manual acceptance required but no hook provided"
              (some "Configure autoAccept or provide an onInvite hook")),
            { st with pendingInvitations :=
                insertAssoc st.pendingInvitations delegationId invite })
        else none
    match hookOutcome with
    | some out => out
    | none =>
      let workspace : WorkspaceManager := { workDir := cfg.workDir, allocated := st.allocated }
      let (workPath, workspace) := workspace.allocate delegationId
      if !(workspace.validate workPath).valid then
        let workspace := workspace.release workPath
        (.error (createErrorMessage delegationId ErrorCodes.WORKDIR_DENIED
            "Workspace validation failed"
            (some "Check workDir configuration")),
          { st with allocated := workspace.allocated })
      else
        let st' := { st with
                      pendingInvitations :=
                        insertAssoc st.pendingInvitations delegationId invite
                      allocated := workspace.allocated }
        (.accept
          { version := PROTOCOL_VERSION
            delegationId := delegationId
            executorWorkDirPath := workPath
            executorConstraints :=
              { acceptedAccessMode := invite.lease.accessMode
                maxTtlSeconds := min invite.lease.ttlSeconds cfg.admission.maxTtlSeconds
                sandboxProfile := cfg.sandbox } }, st')

/-- `ExecutorService.handleStart` (service.ts, lines 280-312): a START must
match a pending invitation; the invitation moves from `pendingInvitations`
to `activeDelegations` and the (asynchronous) task execution begins. -/
def handleStart (cfg : ResolvedExecutorConfig) (st : ExecutorState)
    (start : StartMessage) : Except String ExecutorState :=
  match lookup st.pendingInvitations start.delegationId with
  | none => Except.error ("Unknown delegation for START: " ++ start.delegationId)
  | some invite =>
    let workPath := joinPath cfg.workDir start.delegationId
    Except.ok
      { st with
          pendingInvitations := deleteAssoc st.pendingInvitations start.delegationId
          activeDelegations :=
            insertAssoc st.activeDelegations start.delegationId
              { id := start.delegationId
                workPath := workPath
                task := invite.task
                lease := start.lease
                environment := invite.environment }
          allocated := workPath :: st.allocated }

/-- `ExecutorService.release` (service.ts, lines 546-553): drop the active
delegation and its workspace allocation; transport and filesystem errors
are swallowed. -/
def releaseDelegation (st : ExecutorState) (delegationId : String) :
    ExecutorState :=
  match lookup st.activeDelegations delegationId with
  | none => st
  | some d =>
    { st with
        activeDelegations := deleteAssoc st.activeDelegations delegationId
        allocated := st.allocated.filter (fun p => p ≠ d.workPath) }

/-- `ExecutorService.handleError` (service.ts, lines 441-463): unilateral
cancellation by the Delegator; unknown delegations are an error. -/
def handleError (st : ExecutorState) (err : ErrorMessage) :
    Except String ExecutorState :=
  let hasPending := (lookup st.pendingInvitations err.delegationId).isSome
  let hasActive := (lookup st.activeDelegations err.delegationId).isSome
  if !hasPending && !hasActive then
    Except.error ("Unknown delegation for ERROR: " ++ err.delegationId)
  else
    let st := { st with
                  pendingInvitations := deleteAssoc st.pendingInvitations err.delegationId }
    Except.ok (releaseDelegation st err.delegationId)

/-- `ExecutorService.handleMessage` (service.ts, lines 106-119): dispatch
on `message.type`.  INVITE returns a synchronous ACCEPT/ERROR; START and
ERROR return nothing; any other type throws. -/
def handleMessage (cfg : ResolvedExecutorConfig) (depAvailable : Bool)
    (st : ExecutorState) (msg : AwcpMessage) :
    Except String (Option AwcpMessage × ExecutorState) :=
  match msg with
  | .invite m =>
    let (resp, st') := handleInvite cfg depAvailable st m
    Except.ok (some resp, st')
  | .start m => (handleStart cfg st m).map (fun st' => (none, st'))
  | .error m => (handleError st m).map (fun st' => (none, st'))
  | .accept _ => Except.error "Unexpected message type: ACCEPT"

end ExecutorService

/-! ## Task events, SSE subscription and the execution trace -/

/-- The tagged union of events emitted on a delegation's event stream
(`TaskEvent`). -/
inductive TaskEvent
  | status (delegationId timestamp statusName message : String)
  | snapshot (delegationId timestamp snapshotId summary : String)
      (recommended : Bool)
  | done (delegationId timestamp summary : String)
      (highlights : Option (List String))
      (snapshotIds : Option (List String))
      (recommendedSnapshotId : Option String)
  | error (delegationId timestamp code message : String)
      (hint : Option String)
deriving DecidableEq, Repr

/-- Whether an event is terminal (`done` or `error`). -/
def TaskEvent.isTerminal : TaskEvent → Bool
  | .done _ _ _ _ _ _ => true
  | .error _ _ _ _ _ => true
  | _ => false

/-- Whether an event is a `done` event. -/
def TaskEvent.isDone : TaskEvent → Bool
  | .done _ _ _ _ _ _ => true
  | _ => false

/-- Whether an event is an `error` event. -/
def TaskEvent.isError : TaskEvent → Bool
  | .error _ _ _ _ _ => true
  | _ => false

/-- The error code of an `error` event. -/
def TaskEvent.errorCode : TaskEvent → Option String
  | .error _ _ code _ _ => some code
  | _ => none

namespace ExecutorService

/-- The synthetic terminal event replayed to a late subscriber from a
retained completion record (service.ts, lines 152-163). -/
def replayEvent (delegationId : String) (c : CompletedDelegation) : TaskEvent :=
  match c.state with
  | .completed =>
    .done delegationId c.completedAt
      ((c.snapshot.map (fun s => s.summary)).getD "Task completed")
      (c.snapshot.bind (fun s => s.highlights)) none none
  | .error =>
    .error delegationId c.completedAt
      ((c.error.map (fun e => e.code)).getD ErrorCodes.TASK_FAILED)
      ((c.error.map (fun e => e.message)).getD "Task failed")
      (c.error.bind (fun e => e.hint))

/-- Result of `subscribeTask`: whether the subscriber was attached to a
live emitter, and the events delivered to it immediately. -/
structure SubscribeResult where
  attached : Bool
  immediate : List TaskEvent
deriving DecidableEq, Repr

/-- `ExecutorService.subscribeTask` (service.ts, lines 124-176): an active
or pending delegation attaches the subscriber to the live emitter; a
completed delegation still within the retention window replays exactly one
synthetic terminal event; an unknown id receives exactly one
`NOT_FOUND` error event.  `now` stands for `new Date().toISOString()`. -/
def subscribeTask (st : ExecutorState) (delegationId now : String) :
    SubscribeResult :=
  match lookup st.activeDelegations delegationId with
  | some _ => { attached := true, immediate := [] }
  | none =>
    match lookup st.pendingInvitations delegationId with
    | some _ => { attached := true, immediate := [] }
    | none =>
      match lookup st.completedDelegations delegationId with
      | some c => { attached := false, immediate := [replayEvent delegationId c] }
      | none =>
        { attached := false
          immediate := [.error delegationId now "NOT_FOUND"
            "Delegation not found on executor" none] }

/-- The result the injected task runner returns on success. -/
structure TaskResult where
  summary : String
  highlights : Option (List String)
deriving DecidableEq, Repr

/-- Outcome of the effectful steps of one task execution: which step of
`executeTask` fails (the `catch` turns any of them into a `TASK_FAILED`
error event), or success together with the optional snapshot payload
returned by `transport.captureSnapshot`. -/
inductive ExecOutcome
  | setupFailed (message : String)
  | execFailed (message : String)
  | captureFailed (message : String)
  | success (result : TaskResult) (snapshotBase64 : Option String)
deriving DecidableEq, Repr

/-- The event sequence emitted by `ExecutorService.executeTask`
(service.ts, lines 314-439) for one delegation: a `status{running}` event
once workspace and transport are set up, then on success an optional
`snapshot` event (when `captureSnapshot` returned a payload) followed by
the single `done` event whose `snapshotIds` references exactly that
snapshot; on failure of any step the single `error{TASK_FAILED}` event.
`snapshotId` stands for `generateSnapshotId()` and `now` for the event
timestamps. -/
def executeTask (o : ExecOutcome) (delegationId snapshotId now : String) :
    List TaskEvent :=
  match o with
  | .setupFailed msg =>
    [.error delegationId now ErrorCodes.TASK_FAILED msg
      (some "Check task requirements and try again")]
  | .execFailed msg =>
    [.status delegationId now "running" "Task execution started",
     .error delegationId now ErrorCodes.TASK_FAILED msg
       (some "Check task requirements and try again")]
  | .captureFailed msg =>
    [.status delegationId now "running" "Task execution started",
     .error delegationId now ErrorCodes.TASK_FAILED msg
       (some "Check task requirements and try again")]
  | .success result payload =>
    match payload with
    | some _ =>
      [.status delegationId now "running" "Task execution started",
       .snapshot delegationId now snapshotId result.summary true,
       .done delegationId now result.summary result.highlights
         (some [snapshotId]) (some snapshotId)]
    | none =>
      [.status delegationId now "running" "Task execution started",
       .done delegationId now result.summary result.highlights none none]

end ExecutorService

/-- Number of terminal events in a trace. -/
def terminalCount (tr : List TaskEvent) : Nat :=
  (tr.filter TaskEvent.isTerminal).length

/-- Whether the last event of a trace is terminal. -/
def endsWithTerminal : List TaskEvent → Bool
  | [] => false
  | [e] => e.isTerminal
  | _ :: e :: rest => endsWithTerminal (e :: rest)

/-- Check that every snapshot id referenced by a `done` event's
`snapshotIds` was emitted as a `snapshot` event strictly earlier in the
trace; `seen` accumulates the snapshot ids already emitted. -/
def snapshotsPrecedeDoneAux : List String → List TaskEvent → Bool
  | _, [] => true
  | seen, .snapshot _ _ sid _ _ :: rest => snapshotsPrecedeDoneAux (sid :: seen) rest
  | seen, .done _ _ _ _ ids _ :: rest =>
    (ids.getD []).all (fun s => seen.contains s) && snapshotsPrecedeDoneAux seen rest
  | seen, _ :: rest => snapshotsPrecedeDoneAux seen rest

/-- Top-level form of `snapshotsPrecedeDoneAux`. -/
def snapshotsPrecedeDone (tr : List TaskEvent) : Bool :=
  snapshotsPrecedeDoneAux [] tr

/-! ## Admission controller (packages/sdk/src/delegator/admission.ts) and
delegator configuration defaults (packages/sdk/src/delegator/config.ts) -/

/-- A filesystem tree, as walked by `AdmissionController.scanWorkspace`. -/
inductive FsEntry
  | file (name : String) (size : Nat)
  | dir (name : String) (entries : List FsEntry)
deriving Repr

/-- Workspace statistics `{estimatedBytes, fileCount, largestFileBytes}`. -/
structure WorkspaceStats where
  estimatedBytes : Nat
  fileCount : Nat
  largestFileBytes : Nat
deriving DecidableEq, Repr

/-- The structured content of the refusal hint built by
`AdmissionController.check`: which bound was exceeded, the measured value
and the configured limit.  The source renders this as an interpolated
message string (via `formatBytes`, floating-point formatting not
modelled); the choice of constructor follows the source branch taken. -/
inductive AdmissionHint
  | totalBytesExceeded (got limit : Nat)
  | fileCountExceeded (got limit : Nat)
  | singleFileExceeded (got limit : Nat)
deriving DecidableEq, Repr

/-- Admission check result `{allowed, stats?, hint?}`. -/
structure AdmissionResult where
  allowed : Bool
  stats : Option WorkspaceStats
  hint : Option AdmissionHint
deriving DecidableEq, Repr

/-- Admission configuration: optional bounds, defaulted from
`DEFAULT_ADMISSION`; `customCheck` models the optional user-supplied
check function by its result. -/
structure AdmissionConfig where
  maxTotalBytes : Option Nat
  maxFileCount : Option Nat
  maxSingleFileBytes : Option Nat
  customCheck : Option AdmissionResult
deriving DecidableEq, Repr

/-- The empty admission configuration (`new AdmissionController()` with no
options — every bound falls back to `DEFAULT_ADMISSION`). -/
def AdmissionConfig.empty : AdmissionConfig :=
  { maxTotalBytes := none
    maxFileCount := none
    maxSingleFileBytes := none
    customCheck := none }

/-- `DEFAULT_ADMISSION` size bounds (delegator/config.ts, lines 46-49):
100 MiB total, 10000 files, 50 MiB single file. -/
def DEFAULT_ADMISSION_maxTotalBytes : Nat := 100 * 1024 * 1024

/-- `DEFAULT_ADMISSION.maxFileCount`. -/
def DEFAULT_ADMISSION_maxFileCount : Nat := 10000

/-- `DEFAULT_ADMISSION.maxSingleFileBytes`. -/
def DEFAULT_ADMISSION_maxSingleFileBytes : Nat := 50 * 1024 * 1024

/-- `DEFAULT_ADMISSION.sensitivePatterns` (delegator/config.ts,
lines 50-56): the glob list for dotenv files, private keys and cloud
credentials. -/
def DEFAULT_ADMISSION_sensitivePatterns : List String :=
  [".env", ".env.*",
   "*.pem", "*.key", "*.p12", "*.pfx",
   "id_rsa", "id_rsa.*", "id_ed25519", "id_ed25519.*", "id_ecdsa", "id_ecdsa.*",
   "credentials.json", "service-account*.json",
   ".npmrc", ".pypirc"]

/-- The admission part of the resolved delegator configuration
(delegator/config.ts, lines 94-100). -/
structure ResolvedAdmissionConfig where
  maxTotalBytes : Nat
  maxFileCount : Nat
  maxSingleFileBytes : Nat
  sensitivePatterns : List String
  skipSensitiveCheck : Bool
deriving DecidableEq, Repr

/-- Optional user-supplied admission options as accepted by
`resolveDelegatorConfig`. -/
structure AdmissionConfigInput where
  maxTotalBytes : Option Nat
  maxFileCount : Option Nat
  maxSingleFileBytes : Option Nat
  sensitivePatterns : Option (List String)
  skipSensitiveCheck : Option Bool
deriving DecidableEq, Repr

/-- `resolveDelegatorConfig(...).admission` (delegator/config.ts,
lines 94-100): every field falls back to `DEFAULT_ADMISSION`, and
`skipSensitiveCheck` defaults to `false`. -/
def resolveAdmission (input : Option AdmissionConfigInput) :
    ResolvedAdmissionConfig :=
  { maxTotalBytes :=
      ((input.bind (fun i => i.maxTotalBytes)).getD DEFAULT_ADMISSION_maxTotalBytes)
    maxFileCount :=
      ((input.bind (fun i => i.maxFileCount)).getD DEFAULT_ADMISSION_maxFileCount)
    maxSingleFileBytes :=
      ((input.bind (fun i => i.maxSingleFileBytes)).getD DEFAULT_ADMISSION_maxSingleFileBytes)
    sensitivePatterns :=
      ((input.bind (fun i => i.sensitivePatterns)).getD DEFAULT_ADMISSION_sensitivePatterns)
    skipSensitiveCheck :=
      ((input.bind (fun i => i.skipSensitiveCheck)).getD false) }

namespace AdmissionController

/-- The directory-walk of `AdmissionController.scanWorkspace` (admission.ts,
lines 118-162), called from `check` without a resource spec, so the
include/exclude rules are not consulted: directories named `node_modules`
or `.git` are skipped; every other file contributes its size. -/
def scanEntries : List FsEntry → WorkspaceStats
  | [] => { estimatedBytes := 0, fileCount := 0, largestFileBytes := 0 }
  | FsEntry.file _ size :: rest =>
    let s := scanEntries rest
    { estimatedBytes := s.estimatedBytes + size
      fileCount := s.fileCount + 1
      largestFileBytes := max s.largestFileBytes size }
  | FsEntry.dir name entries :: rest =>
    if name == "node_modules" || name == ".git" then scanEntries rest
    else
      let sIn := scanEntries entries
      let s := scanEntries rest
      { estimatedBytes := s.estimatedBytes + sIn.estimatedBytes
        fileCount := s.fileCount + sIn.fileCount
        largestFileBytes := max s.largestFileBytes sIn.largestFileBytes }

/-- `AdmissionController.scanWorkspace` on the root directory's entries. -/
def scanWorkspace (workspace : List FsEntry) : WorkspaceStats :=
  scanEntries workspace

/-- `AdmissionController.check` (admission.ts, lines 74-116): a configured
`customCheck` short-circuits; otherwise the workspace is scanned and the
three bounds are tested in order (total bytes, file count, largest file),
each guarded by the source's JavaScript truthiness test on the stat value.
No other check is performed — in particular no sensitive-path pattern
matching.  (The `catch` branch that allows on a scan failure has no
counterpart here: the embedded scan is total.) -/
def check (cfg : AdmissionConfig) (workspace : List FsEntry) : AdmissionResult :=
  match cfg.customCheck with
  | some custom => custom
  | none =>
    let stats := scanWorkspace workspace
    let maxTotal := cfg.maxTotalBytes.getD DEFAULT_ADMISSION_maxTotalBytes
    let maxCount := cfg.maxFileCount.getD DEFAULT_ADMISSION_maxFileCount
    let maxSingle := cfg.maxSingleFileBytes.getD DEFAULT_ADMISSION_maxSingleFileBytes
    if stats.estimatedBytes != 0 && stats.estimatedBytes > maxTotal then
      { allowed := false, stats := some stats
        hint := some (AdmissionHint.totalBytesExceeded stats.estimatedBytes maxTotal) }
    else if stats.fileCount != 0 && stats.fileCount > maxCount then
      { allowed := false, stats := some stats
        hint := some (AdmissionHint.fileCountExceeded stats.fileCount maxCount) }
    else if stats.largestFileBytes != 0 && stats.largestFileBytes > maxSingle then
      { allowed := false, stats := some stats
        hint := some (AdmissionHint.singleFileExceeded stats.largestFileBytes maxSingle) }
    else
      { allowed := true, stats := some stats, hint := none }

end AdmissionController

/-- Whether a `handleMessage` result is a synchronous ACCEPT response. -/
def msgResponseAccepted
    (r : Except String (Option AwcpMessage × ExecutorState)) : Bool :=
  match r with
  | .ok (some m, _) => m.isAccept
  | _ => false

/-- Whether an `AdmissionHint` correctly identifies a bound that the given
stats actually exceed, under the given limits. -/
def AdmissionHint.identifies (h : AdmissionHint) (stats : WorkspaceStats)
    (maxTotal maxCount maxSingle : Nat) : Bool :=
  match h with
  | .totalBytesExceeded got limit =>
    got == stats.estimatedBytes && limit == maxTotal && decide (got > limit)
  | .fileCountExceeded got limit =>
    got == stats.fileCount && limit == maxCount && decide (got > limit)
  | .singleFileExceeded got limit =>
    got == stats.largestFileBytes && limit == maxSingle && decide (got > limit)

/-! ## Concrete fixtures used by the witnesses and counterexamples -/

/-- A read-write filesystem resource. -/
def exResource : ResourceSpec :=
  { name := "ws", rtype := "fs", source := "/src/proj", mode := AccessMode.rw }

/-- A snapshot already applied (status `applied`). -/
def exSnapApplied : EnvironmentSnapshot :=
  { id := "s1", delegationId := "d1", summary := "first", highlights := none
    status := SnapshotStatus.applied, recommended := none
    createdAt := "t0", appliedAt := some "t1", localPath := some "/base/d1/s1" }

/-- A staged snapshot still pending. -/
def exSnapPending : EnvironmentSnapshot :=
  { id := "s2", delegationId := "d1", summary := "second", highlights := none
    status := SnapshotStatus.pending, recommended := none
    createdAt := "t0", appliedAt := none, localPath := some "/base/d1/s2" }

/-- A staged-policy delegation that already has one applied snapshot
(`s1`) and one pending snapshot (`s2`). -/
def exStagedDelegation : Delegation :=
  { id := "d1"
    snapshotPolicy := some { mode := SnapshotMode.staged }
    exportPath := some "/base/environments/d1"
    environment := { resources := [exResource] }
    snapshots := [exSnapApplied, exSnapPending]
    appliedSnapshotId := some "s1"
    updatedAt := "t1" }

/-- An auto-policy delegation with no export path and no snapshots yet. -/
def exAutoDelegation : Delegation :=
  { id := "d2"
    snapshotPolicy := some { mode := SnapshotMode.auto }
    exportPath := none
    environment := { resources := [exResource] }
    snapshots := []
    appliedSnapshotId := none
    updatedAt := "t0" }

/-- A snapshot event for the auto-policy delegation. -/
def exSnapEvent : TaskSnapshotEvent :=
  { delegationId := "d2", snapshotId := "s9", summary := "work done"
    highlights := none, recommended := some true, snapshotBase64 := "UEs=" }

/-- An executor configuration with the default admission limits,
`autoAccept` and no hook. -/
def exCfg : ResolvedExecutorConfig :=
  { workDir := "/work"
    admission := DEFAULT_EXECUTOR_ADMISSION
    sandbox := { cwdOnly := true, allowNetwork := true, allowExec := true }
    autoAccept := true
    resultRetentionMs := 1800000
    hookOnInvite := none }

/-- `exCfg` with `maxConcurrentDelegations = 1`. -/
def exCfgConc1 : ResolvedExecutorConfig :=
  { exCfg with admission := { exCfg.admission with maxConcurrentDelegations := 1 } }

/-- An INVITE requesting a TTL of 7200 s, above the configured maximum of
3600 s, and otherwise admissible. -/
def exInviteOverTtl : InviteMessage :=
  { version := "1", delegationId := "d1", task := { description := "t", prompt := "p" }
    lease := { ttlSeconds := 7200, accessMode := AccessMode.rw }
    environment := { resources := [exResource] } }

/-- An admissible INVITE for delegation `d1`. -/
def exInvite1 : InviteMessage :=
  { version := "1", delegationId := "d1", task := { description := "t", prompt := "p" }
    lease := { ttlSeconds := 600, accessMode := AccessMode.rw }
    environment := { resources := [exResource] } }

/-- An admissible INVITE for delegation `d2`. -/
def exInvite2 : InviteMessage :=
  { version := "1", delegationId := "d2", task := { description := "t", prompt := "p" }
    lease := { ttlSeconds := 600, accessMode := AccessMode.rw }
    environment := { resources := [exResource] } }

/-- An admissible INVITE carrying the wrong protocol version. -/
def exInviteBadVersion : InviteMessage :=
  { exInvite1 with version := "2" }

/-- An active delegation occupying the executor. -/
def exActiveRec : ActiveDelegation :=
  { id := "d1", workPath := "/work/d1", task := { description := "t", prompt := "p" }
    lease := { expiresAt := "2026-01-01T00:00:00Z", accessMode := AccessMode.rw }
    environment := { resources := [exResource] } }

/-- Executor state with one active delegation. -/
def exBusyState : ExecutorState :=
  { pendingInvitations := []
    activeDelegations := [("d1", exActiveRec)]
    completedDelegations := []
    allocated := ["/work/d1"] }

/-- A retained completion record for a successfully completed delegation. -/
def exCompletedRec : CompletedDelegation :=
  { id := "d1", completedAt := "t5", state := CompState.completed
    snapshot := some { id := "snap1", summary := "did things"
                       highlights := none, snapshotBase64 := some "UEs=" }
    error := none }

/-- Executor state where delegation `d1` completed and is retained. -/
def exCompletedState : ExecutorState :=
  { pendingInvitations := []
    activeDelegations := []
    completedDelegations := [("d1", exCompletedRec)]
    allocated := [] }

/-- Admission configuration with `maxTotalBytes = 1024`. -/
def exAdmission1024 : AdmissionConfig :=
  { AdmissionConfig.empty with maxTotalBytes := some 1024 }

/-! ## Theorems -/

/-- C1 (counterexample): `SnapshotManager.apply` does NOT refuse when
another snapshot of the delegation is already applied.  On a delegation
with `s1` applied and `s2` pending, `apply(s2)` succeeds, leaves the
delegation with TWO snapshots of status `applied`, and overwrites
`appliedSnapshotId` — refuting both the claimed refusal and the at-most-
one-applied invariant. -/
theorem apply_second_pending_after_applied_succeeds :
    (SnapshotManager.apply (fun _ _ => true) true true "t2"
        exStagedDelegation "s2").map
        (fun r => (countApplied r.fst, r.fst.appliedSnapshotId, r.snd.status))
      = Except.ok (2, some "s2", SnapshotStatus.applied) := by
  rfl

/-- C2 (counterexample): an INVITE whose requested TTL (7200 s) exceeds
the executor's configured `maxTtlSeconds` (3600 s), with every other
admission gate passing, is answered with an ERROR of code `DECLINED` —
not with an ACCEPT carrying a clamped `maxTtlSeconds`. -/
theorem invite_over_ttl_declined_not_clamped :
    (ExecutorService.handleInvite exCfg true ExecutorState.empty
        exInviteOverTtl).fst
      = AwcpMessage.error (createErrorMessage "d1" ErrorCodes.DECLINED
          "Requested TTL exceeds maximum" (some "Request a shorter TTL")) := by
  rfl

/-- C3 (counterexample): with `maxConcurrentDelegations = 1`, two INVITEs
with distinct delegation ids and no START in between are BOTH answered
with ACCEPT: the concurrency gate counts only started (active)
delegations, so the second INVITE is not declined. -/
theorem second_invite_without_start_accepted :
    (ExecutorService.handleInvite exCfgConc1 true ExecutorState.empty
        exInvite1).fst.isAccept = true
    ∧ (ExecutorService.handleInvite exCfgConc1 true
        (ExecutorService.handleInvite exCfgConc1 true ExecutorState.empty
          exInvite1).snd exInvite2).fst.isAccept = true := by
  exact ⟨rfl, rfl⟩

/-- C4 (counterexample): the delegation id `../work2/x` allocates the
path `/work2/x` (node `join` normalizes the traversal), which
`WorkspaceManager.validate` accepts because `/work` is a string prefix of
it — yet `/work2/x` does not lie under the work root `/work`. -/
theorem traversal_id_escapes_to_sibling :
    (WorkspaceManager.allocate { workDir := "/work", allocated := [] }
        "../work2/x").fst = "/work2/x"
    ∧ (WorkspaceManager.validate { workDir := "/work", allocated := [] }
        "/work2/x").valid = true
    ∧ liesUnder "/work" "/work2/x" = false := by
  exact ⟨rfl, rfl, rfl⟩

/-- C5 (code evaluation at the failing input): with the default
configuration — whose resolved `skipSensitiveCheck` is `false` and whose
`sensitivePatterns` include `.env` — `AdmissionController.check` admits a
workspace containing the file `.env`: the controller never consults the
sensitive-pattern list. -/
theorem dotenv_workspace_admitted_despite_default_config :
    (AdmissionController.check AdmissionConfig.empty
        [FsEntry.file ".env" 10]).allowed = true
    ∧ (resolveAdmission none).skipSensitiveCheck = false
    ∧ ".env" ∈ (resolveAdmission none).sensitivePatterns := by
  refine ⟨?_, rfl, ?_⟩
  · simp [AdmissionController.check, AdmissionController.scanWorkspace,
      AdmissionController.scanEntries, AdmissionConfig.empty,
      DEFAULT_ADMISSION_maxTotalBytes, DEFAULT_ADMISSION_maxFileCount,
      DEFAULT_ADMISSION_maxSingleFileBytes]
  · simp [resolveAdmission, DEFAULT_ADMISSION_sensitivePatterns]

/-- C2 (amended): for every INVITE whose `lease.ttlSeconds` exceeds the
executor's configured `maxTtlSeconds`, provided the concurrency gate
passes, `ExecutorService.handleInvite` returns an ERROR with code
`DECLINED` (and leaves the state unchanged) rather than an ACCEPT; the
clamp `min(requested, max)` applies only to admitted invites, where it
equals the requested TTL. -/
theorem invite_over_ttl_refused (cfg : ResolvedExecutorConfig)
    (dep : Bool) (st : ExecutorState) (inv : InviteMessage)
    (h1 : st.activeDelegations.length < cfg.admission.maxConcurrentDelegations)
    (h2 : inv.lease.ttlSeconds > cfg.admission.maxTtlSeconds) :
    ExecutorService.handleInvite cfg dep st inv
      = (AwcpMessage.error (createErrorMessage inv.delegationId
          ErrorCodes.DECLINED "Requested TTL exceeds maximum"
          (some "Request a shorter TTL")), st) := by
  unfold ExecutorService.handleInvite
  rw [if_neg (by omega), if_pos h2]

/-- Closed witness for `invite_over_ttl_refused` at the concrete
over-TTL INVITE. -/
theorem invite_over_ttl_refused_witness :
    ExecutorService.handleInvite exCfg true ExecutorState.empty exInviteOverTtl
      = (AwcpMessage.error (createErrorMessage exInviteOverTtl.delegationId
          ErrorCodes.DECLINED "Requested TTL exceeds maximum"
          (some "Request a shorter TTL")), ExecutorState.empty) :=
  invite_over_ttl_refused exCfg true ExecutorState.empty exInviteOverTtl
    (by decide) (by decide)

/-- C3 (amended): the executor concurrency cap counts only active
(started) delegations: whenever `activeDelegations` already holds at
least `maxConcurrentDelegations` entries, `handleInvite` returns an ERROR
with code `DECLINED` ("Maximum concurrent delegations reached") and
leaves the state unchanged.  Pending (accepted but unstarted) admissions
are not counted, so two INVITEs with no START in between are both
accepted (see the counterexample). -/
theorem invite_declined_when_active_at_capacity
    (cfg : ResolvedExecutorConfig) (dep : Bool) (st : ExecutorState)
    (inv : InviteMessage)
    (h : st.activeDelegations.length ≥ cfg.admission.maxConcurrentDelegations) :
    ExecutorService.handleInvite cfg dep st inv
      = (AwcpMessage.error (createErrorMessage inv.delegationId
          ErrorCodes.DECLINED "Maximum concurrent delegations reached"
          (some "Try again later when current tasks complete")), st) := by
  unfold ExecutorService.handleInvite
  rw [if_pos h]

/-- Closed witness for `invite_declined_when_active_at_capacity`: with
`maxConcurrentDelegations = 1` and one active delegation, a further
INVITE is declined. -/
theorem invite_declined_at_capacity_witness :
    ExecutorService.handleInvite exCfgConc1 true exBusyState exInvite2
      = (AwcpMessage.error (createErrorMessage exInvite2.delegationId
          ErrorCodes.DECLINED "Maximum concurrent delegations reached"
          (some "Try again later when current tasks complete")), exBusyState) :=
  invite_declined_when_active_at_capacity exCfgConc1 true exBusyState exInvite2
    (by decide)

/-- C8 (counterexample): an INVITE carrying version `"2"` (≠ the protocol
version `"1"`) and passing every admission gate is processed normally and
answered with ACCEPT — `handleMessage` performs no version check, so the
message is not rejected with `DECLINED`. -/
theorem mismatched_version_invite_processed :
    msgResponseAccepted (ExecutorService.handleMessage exCfg true
        ExecutorState.empty (AwcpMessage.invite exInviteBadVersion)) = true
    ∧ exInviteBadVersion.version ≠ PROTOCOL_VERSION := by
  exact ⟨rfl, by decide⟩

/-- C1 (amended): `SnapshotManager.apply` succeeds exactly when the target
snapshot exists, the target ITSELF does not already have status
`applied`, and its persisted payload is present; no other snapshot of the
delegation is consulted, so a second pending snapshot can be applied after
one was applied. -/
theorem apply_ok_iff_target_not_applied_and_stored
    (stored : String → String → Bool) (transportOk hasApplyFn : Bool)
    (now : String) (d : Delegation) (sid : String) :
    (∃ r, SnapshotManager.apply stored transportOk hasApplyFn now d sid
        = Except.ok r)
    ↔ ∃ s, d.snapshots.find? (fun t => t.id == sid) = some s
        ∧ s.status ≠ SnapshotStatus.applied ∧ stored d.id sid = true := by
  unfold SnapshotManager.apply
  cases hf : d.snapshots.find? (fun t => t.id == sid) with
  | none => simp
  | some s =>
    by_cases hst : s.status = SnapshotStatus.applied
    · simp [hst]
    · by_cases hstore : stored d.id sid
      · simp [hst, hstore]
      · simp [hst, hstore]

/-- Membership in the output of one normalization step preserves
cleanliness of components. -/
theorem mem_normStep {acc : List String} {c x : String}
    (hx : x ∈ normStep acc c)
    (h : ∀ y ∈ acc, y ≠ "" ∧ y ≠ "." ∧ y ≠ "..") :
    x ≠ "" ∧ x ≠ "." ∧ x ≠ ".." := by
  unfold normStep at hx
  split at hx
  · exact h x hx
  · split at hx
    · exact h x ((List.dropLast_sublist _).subset hx)
    · rcases List.mem_append.mp hx with hmem | hmem
      · exact h x hmem
      · have hxc := List.mem_singleton.mp hmem
        subst hxc
        rename_i h1 h2
        simp only [Bool.or_eq_true, decide_eq_true_eq, not_or] at h1 h2
        exact ⟨h1.1, h1.2, h2⟩

/-- Folding normalization steps over any components produces only clean
components. -/
theorem foldl_normStep_clean :
    ∀ (cs acc : List String),
      (∀ y ∈ acc, y ≠ "" ∧ y ≠ "." ∧ y ≠ "..") →
      ∀ x ∈ cs.foldl normStep acc, x ≠ "" ∧ x ≠ "." ∧ x ≠ ".." := by
  intro cs
  induction cs with
  | nil => intro acc h x hx; exact h x hx
  | cons c rest ih =>
    intro acc h x hx
    exact ih (normStep acc c) (fun y hy => mem_normStep hy h) x hx

/-- C4 (amended): `WorkspaceManager.validate(p)` accepts exactly the `p`
having `workRoot` as a STRING prefix (not the paths lying under
`workRoot`: a sibling directory whose name extends `workRoot` as a string
prefix is also accepted — see the counterexample); and the path produced
from any caller-supplied delegation id by `allocate`'s node-style `join`
is normalized, containing no `..`, `.` or empty component, so `..`
traversal cannot produce an accepted path other than through that string-
prefix weakness. -/
theorem validate_is_string_prefix_and_join_is_normalized
    (w : WorkspaceManager) (p delegationId : String) :
    ((w.validate p).valid = true ↔ strPrefix w.workDir p = true)
    ∧ ".." ∉ joinParts w.workDir delegationId
    ∧ "." ∉ joinParts w.workDir delegationId
    ∧ "" ∉ joinParts w.workDir delegationId := by
  refine ⟨?_, ?_, ?_, ?_⟩
  · unfold WorkspaceManager.validate
    split
    · rename_i hcond
      simp only [Bool.not_eq_eq_eq_not, Bool.not_true] at hcond
      simp [hcond]
    · rename_i hcond
      simp only [Bool.not_eq_eq_eq_not, Bool.not_true] at hcond
      simp [hcond]
  · intro hmem
    exact (foldl_normStep_clean _ [] (by simp) _ hmem).2.2 rfl
  · intro hmem
    exact (foldl_normStep_clean _ [] (by simp) _ hmem).2.1 rfl
  · intro hmem
    exact (foldl_normStep_clean _ [] (by simp) _ hmem).1 rfl

/-- The synchronous response of `handleInvite` does not depend on the
INVITE's version field when no user hook is configured (a hook receives
the whole message and could in principle inspect it). -/
theorem handleInvite_fst_version_blind (cfg : ResolvedExecutorConfig)
    (dep : Bool) (st : ExecutorState) (m : InviteMessage) (v : String)
    (hk : cfg.hookOnInvite = none) :
    (ExecutorService.handleInvite cfg dep st { m with version := v }).fst
      = (ExecutorService.handleInvite cfg dep st m).fst := by
  unfold ExecutorService.handleInvite
  rw [hk]
  dsimp only
  split_ifs <;> rfl

/-- C8 (amended): the executor performs NO protocol-version validation:
with no user hook configured, the synchronous response of `handleMessage`
to any INVITE, START or ERROR message is identical whatever the message's
version field is — a mismatched version is processed exactly like
version "1", not rejected with `DECLINED`. -/
theorem handleMessage_response_version_blind (cfg : ResolvedExecutorConfig)
    (dep : Bool) (st : ExecutorState) (m : AwcpMessage) (v : String)
    (hk : cfg.hookOnInvite = none) :
    (ExecutorService.handleMessage cfg dep st (setVersion m v)).map Prod.fst
      = (ExecutorService.handleMessage cfg dep st m).map Prod.fst := by
  cases m with
  | invite im =>
    have hfst := handleInvite_fst_version_blind cfg dep st im v hk
    simp only [setVersion, ExecutorService.handleMessage, Except.map]
    exact congrArg (fun x => Except.ok (some x)) hfst
  | accept am => rfl
  | start sm => rfl
  | error em => rfl

/-- Closed witness for `handleMessage_response_version_blind`: an
admissible INVITE rewritten to version `"2"` draws the same synchronous
response as the original. -/
theorem handleMessage_version_blind_witness :
    (ExecutorService.handleMessage exCfg true ExecutorState.empty
        (setVersion (AwcpMessage.invite exInvite1) "2")).map Prod.fst
      = (ExecutorService.handleMessage exCfg true ExecutorState.empty
          (AwcpMessage.invite exInvite1)).map Prod.fst :=
  handleMessage_response_version_blind exCfg true ExecutorState.empty
    (AwcpMessage.invite exInvite1) "2" rfl

/-- C6 (confirmed): for a delegation that is neither active nor pending,
`subscribeTask` delivers to the subscriber exactly one synthetic terminal
event when the delegation completed within the retention window (`done`
for state `completed`, `error` otherwise), and exactly one `error` event
with code `NOT_FOUND` when the delegation is unknown.  (Retention is
modelled by membership in `completedDelegations`: `scheduleResultCleanup`
removes the record after `resultRetentionMs`.) -/
theorem subscribeTask_replays_terminal_or_not_found
    (st : ExecutorState) (delegationId now : String)
    (hA : lookup st.activeDelegations delegationId = none)
    (hP : lookup st.pendingInvitations delegationId = none) :
    (∀ c, lookup st.completedDelegations delegationId = some c →
      ExecutorService.subscribeTask st delegationId now
        = { attached := false
            immediate := [ExecutorService.replayEvent delegationId c] }
      ∧ (ExecutorService.replayEvent delegationId c).isTerminal = true
      ∧ (ExecutorService.replayEvent delegationId c).isDone
          = (c.state == CompState.completed)
      ∧ (ExecutorService.replayEvent delegationId c).isError
          = (c.state == CompState.error))
    ∧ (lookup st.completedDelegations delegationId = none →
      ExecutorService.subscribeTask st delegationId now
        = { attached := false
            immediate := [TaskEvent.error delegationId now "NOT_FOUND"
              "Delegation not found on executor" none] }) := by
  constructor
  · intro c hC
    refine ⟨?_, ?_, ?_, ?_⟩
    · simp [ExecutorService.subscribeTask, hA, hP, hC]
    · cases hs : c.state <;>
        simp [ExecutorService.replayEvent, hs, TaskEvent.isTerminal]
    · cases hs : c.state <;>
        simp [ExecutorService.replayEvent, hs, TaskEvent.isDone]
    · cases hs : c.state <;>
        simp [ExecutorService.replayEvent, hs, TaskEvent.isError]
  · intro hC
    simp [ExecutorService.subscribeTask, hA, hP, hC]

/-- Closed witness for `subscribeTask_replays_terminal_or_not_found` at a
state retaining one completed delegation. -/
theorem subscribeTask_replay_witness :
    ExecutorService.subscribeTask exCompletedState "d1" "t9"
      = { attached := false
          immediate := [ExecutorService.replayEvent "d1" exCompletedRec] }
    ∧ (ExecutorService.replayEvent "d1" exCompletedRec).isTerminal = true
    ∧ (ExecutorService.replayEvent "d1" exCompletedRec).isDone
        = (exCompletedRec.state == CompState.completed)
    ∧ (ExecutorService.replayEvent "d1" exCompletedRec).isError
        = (exCompletedRec.state == CompState.error) :=
  (subscribeTask_replays_terminal_or_not_found exCompletedState "d1" "t9"
      rfl rfl).1 exCompletedRec rfl

/-- C7 (confirmed): when the scanned statistics of a workspace exceed any
configured admission bound (and no custom check overrides the scan),
`AdmissionController.check` refuses: it returns `allowed = false`, the
computed stats, and a hint that correctly identifies an exceeded bound —
total bytes over `maxTotalBytes`, file count over `maxFileCount`, or
largest file over `maxSingleFileBytes`. -/
theorem check_refuses_when_bound_exceeded
    (cfg : AdmissionConfig) (ws : List FsEntry)
    (hcustom : cfg.customCheck = none)
    (hexceed :
      (AdmissionController.scanWorkspace ws).estimatedBytes
          > cfg.maxTotalBytes.getD DEFAULT_ADMISSION_maxTotalBytes
      ∨ (AdmissionController.scanWorkspace ws).fileCount
          > cfg.maxFileCount.getD DEFAULT_ADMISSION_maxFileCount
      ∨ (AdmissionController.scanWorkspace ws).largestFileBytes
          > cfg.maxSingleFileBytes.getD DEFAULT_ADMISSION_maxSingleFileBytes) :
    (AdmissionController.check cfg ws).allowed = false
    ∧ (AdmissionController.check cfg ws).stats
        = some (AdmissionController.scanWorkspace ws)
    ∧ ∃ h, (AdmissionController.check cfg ws).hint = some h
        ∧ h.identifies (AdmissionController.scanWorkspace ws)
            (cfg.maxTotalBytes.getD DEFAULT_ADMISSION_maxTotalBytes)
            (cfg.maxFileCount.getD DEFAULT_ADMISSION_maxFileCount)
            (cfg.maxSingleFileBytes.getD DEFAULT_ADMISSION_maxSingleFileBytes)
          = true := by
  unfold AdmissionController.check
  rw [hcustom]
  dsimp only
  by_cases h1 : (AdmissionController.scanWorkspace ws).estimatedBytes
      > cfg.maxTotalBytes.getD DEFAULT_ADMISSION_maxTotalBytes
  · rw [if_pos (by
      simp only [Bool.and_eq_true, bne_iff_ne, ne_eq, decide_eq_true_eq]
      exact ⟨by omega, h1⟩)]
    exact ⟨rfl, rfl, AdmissionHint.totalBytesExceeded _ _, rfl,
      by simp [AdmissionHint.identifies, h1]⟩
  · rw [if_neg (by simp [h1])]
    by_cases h2 : (AdmissionController.scanWorkspace ws).fileCount
        > cfg.maxFileCount.getD DEFAULT_ADMISSION_maxFileCount
    · rw [if_pos (by
        simp only [Bool.and_eq_true, bne_iff_ne, ne_eq, decide_eq_true_eq]
        exact ⟨by omega, h2⟩)]
      exact ⟨rfl, rfl, AdmissionHint.fileCountExceeded _ _, rfl,
        by simp [AdmissionHint.identifies, h2]⟩
    · rw [if_neg (by simp [h2])]
      by_cases h3 : (AdmissionController.scanWorkspace ws).largestFileBytes
          > cfg.maxSingleFileBytes.getD DEFAULT_ADMISSION_maxSingleFileBytes
      · rw [if_pos (by
          simp only [Bool.and_eq_true, bne_iff_ne, ne_eq, decide_eq_true_eq]
          exact ⟨by omega, h3⟩)]
        exact ⟨rfl, rfl, AdmissionHint.singleFileExceeded _ _, rfl,
          by simp [AdmissionHint.identifies, h3]⟩
      · rcases hexceed with h | h | h
        · exact absurd h h1
        · exact absurd h h2
        · exact absurd h h3

/-- Closed witness for `check_refuses_when_bound_exceeded`: with
`maxTotalBytes = 1024` and a source containing one 2 KiB file, the check
refuses with a total-bytes hint. -/
theorem check_refuses_witness :
    (AdmissionController.check exAdmission1024
        [FsEntry.file "big.bin" 2048]).allowed = false
    ∧ (AdmissionController.check exAdmission1024
        [FsEntry.file "big.bin" 2048]).stats
        = some (AdmissionController.scanWorkspace [FsEntry.file "big.bin" 2048])
    ∧ ∃ h, (AdmissionController.check exAdmission1024
          [FsEntry.file "big.bin" 2048]).hint = some h
        ∧ h.identifies
            (AdmissionController.scanWorkspace [FsEntry.file "big.bin" 2048])
            (exAdmission1024.maxTotalBytes.getD DEFAULT_ADMISSION_maxTotalBytes)
            (exAdmission1024.maxFileCount.getD DEFAULT_ADMISSION_maxFileCount)
            (exAdmission1024.maxSingleFileBytes.getD
              DEFAULT_ADMISSION_maxSingleFileBytes) = true :=
  check_refuses_when_bound_exceeded exAdmission1024
    [FsEntry.file "big.bin" 2048] rfl
    (Or.inl (by
      simp [AdmissionController.scanWorkspace, AdmissionController.scanEntries,
        exAdmission1024, AdmissionConfig.empty]))

/-- C9 (confirmed): the event sequence emitted by one task execution
contains exactly one terminal event, that terminal event is the last
event of the sequence, and every snapshot id referenced by a `done`
event's `snapshotIds` was emitted as a `snapshot` event strictly before
it; `status` events only ever precede the terminal. -/
theorem executeTask_events_wellformed
    (o : ExecutorService.ExecOutcome) (delegationId snapshotId now : String) :
    terminalCount (ExecutorService.executeTask o delegationId snapshotId now) = 1
    ∧ endsWithTerminal
        (ExecutorService.executeTask o delegationId snapshotId now) = true
    ∧ snapshotsPrecedeDone
        (ExecutorService.executeTask o delegationId snapshotId now) = true := by
  cases o with
  | setupFailed m => exact ⟨rfl, rfl, rfl⟩
  | execFailed m => exact ⟨rfl, rfl, rfl⟩
  | captureFailed m => exact ⟨rfl, rfl, rfl⟩
  | success result payload =>
    cases payload with
    | none => exact ⟨rfl, rfl, rfl⟩
    | some p =>
      refine ⟨rfl, rfl, ?_⟩
      simp [ExecutorService.executeTask, snapshotsPrecedeDone,
        snapshotsPrecedeDoneAux]

/-- C10 (confirmed): under snapshot policy `auto`, `SnapshotManager.receive`
marks the received snapshot `applied` and records `appliedSnapshotId`
UNCONDITIONALLY — for every outcome of the transport call (`transportOk`),
whether the adapter even defines `applySnapshot` (`hasApplyFn`), and
whatever the delegation's `exportPath` and resources are; and when the
delegation has no `exportPath`, `applyViaTransport` did not modify any
export tree, so status `applied` does not entail an applied export. -/
theorem receive_auto_marks_applied_unconditionally
    (transportOk hasApplyFn : Bool) (now stagedDir : String)
    (d : Delegation) (ev : TaskSnapshotEvent)
    (hpol : d.snapshotPolicy = some { mode := SnapshotMode.auto }) :
    ((SnapshotManager.receive false transportOk hasApplyFn now stagedDir d ev).map
        (fun r => (r.2.status, r.2.appliedAt, r.1.appliedSnapshotId)))
      = some (SnapshotStatus.applied, some now, some ev.snapshotId)
    ∧ (d.exportPath = none →
        SnapshotManager.applyViaTransport transportOk hasApplyFn d = false) := by
  constructor
  · simp [SnapshotManager.receive, hpol]
  · intro hexp
    simp [SnapshotManager.applyViaTransport, hexp]

/-- Closed witness for `receive_auto_marks_applied_unconditionally`: a
delegation with auto policy, no export path and a failing transport still
records the snapshot as `applied`. -/
theorem receive_auto_witness :
    ((SnapshotManager.receive false false false "t3" "/base/d2"
        exAutoDelegation exSnapEvent).map
        (fun r => (r.2.status, r.2.appliedAt, r.1.appliedSnapshotId)))
      = some (SnapshotStatus.applied, some "t3", some exSnapEvent.snapshotId)
    ∧ (exAutoDelegation.exportPath = none →
        SnapshotManager.applyViaTransport false false exAutoDelegation = false) :=
  receive_auto_marks_applied_unconditionally false false "t3" "/base/d2"
    exAutoDelegation exSnapEvent rfl

end AWCP
